import Mathlib

/-!
Verification development for the dependency-analysis core of
`pyproj_dep_analyze` (`src/pyproj_dep_analyse/analyzer.py` and
`src/pyproj_dep_analyse/models.py`).

The Python code is shallowly embedded: strings are Lean `String`s
(manipulated as `List Char`), regular-expression searches are embedded as
explicit left-to-right scanning functions that implement exactly the
behaviour of the precompiled patterns in `analyzer.py`, Python `None` is
`Option.none`, Python dictionaries are total functions into `Option`, and
Python exceptions are `Except` values.
-/

namespace PyprojDepAnalyze

/-! ## Character classes and low-level Python string helpers -/

/-- ASCII whitespace as recognised by Python `str.strip()` and the regex
class `\s` (space, tab, newline, carriage return, vertical tab, form feed). -/
def isPySpace (c : Char) : Bool :=
  c == ' ' || c == Char.ofNat 9 || c == Char.ofNat 10 || c == Char.ofNat 13
    || c == Char.ofNat 11 || c == Char.ofNat 12

/-- The regex class `[0-9]` / `\d` (ASCII). -/
def isDigitC (c : Char) : Bool :=
  decide (48 ≤ c.toNat) && decide (c.toNat ≤ 57)

/-- The regex class `[0-9a-zA-Z._-]` used by the version-constraint patterns. -/
def isVerChar (c : Char) : Bool :=
  isDigitC c || (decide (97 ≤ c.toNat) && decide (c.toNat ≤ 122))
    || (decide (65 ≤ c.toNat) && decide (c.toNat ≤ 90))
    || c == '.' || c == '_' || c == '-'

/-- Python `str.strip()` restricted to ASCII whitespace. -/
def stripChars (l : List Char) : List Char :=
  ((l.dropWhile isPySpace).reverse.dropWhile isPySpace).reverse

/-- Numeric value of a decimal digit character. -/
def charVal (c : Char) : Nat := c.toNat - 48

/-- Value of a list of decimal digit characters (most significant first). -/
def natOfDigits (l : List Char) : Nat :=
  l.foldl (fun acc c => acc * 10 + charVal c) 0

/-- Python `s.split(sep)` for a single-character separator: splits at every
occurrence, keeping empty pieces (`"".split(".") == [""]`). -/
def splitOnChar (sep : Char) : List Char → List (List Char)
  | [] => [[]]
  | x :: xs =>
    let r := splitOnChar sep xs
    if x = sep then [] :: r
    else
      match r with
      | h :: t => (x :: h) :: t
      | [] => [[x]]

/-- Worker for `digitRuns`: `cur` holds the digits of the current run in
reverse order. -/
def digitRunsGo : List Char → List Char → List (List Char)
  | cur, [] => if cur = [] then [] else [cur.reverse]
  | cur, c :: cs =>
    if isDigitC c then digitRunsGo (c :: cur) cs
    else if cur = [] then digitRunsGo [] cs
    else cur.reverse :: digitRunsGo [] cs

/-- The maximal digit runs of a character list, in order: the embedding of
`re.findall(r"\d+", s)`. -/
def digitRuns (l : List Char) : List (List Char) :=
  digitRunsGo [] l

/-! ## `_version_tuple` and `_version_is_greater`
(`analyzer.py` lines 94-119). -/

/-- Embedding of `_version_tuple`: take the text before the first hyphen,
then before the first plus (`version.split("-")[0].split("+")[0]`),
collect every maximal digit run as a number, and default to `[0]` when no
digits are found.  The `lru_cache` decorator memoizes a pure function and
is semantically transparent. -/
def _version_tuple (version : String) : List Nat :=
  let base := (version.toList.takeWhile (fun c => !(c == '-'))).takeWhile
    (fun c => !(c == '+'))
  let parts := digitRuns base
  if parts = [] then [0] else parts.map natOfDigits

/-- Python tuple comparison `t1 > t2` for tuples of naturals: lexicographic,
with a strict prefix comparing as smaller. -/
def tupleGt : List Nat → List Nat → Bool
  | [], _ => false
  | _ :: _, [] => true
  | a :: as, b :: bs => if b < a then true else if a < b then false else tupleGt as bs

/-- Embedding of `_version_is_greater` (`return _version_tuple(v1) > _version_tuple(v2)`). -/
def _version_is_greater (v1 : String) (v2 : String) : Bool :=
  tupleGt (_version_tuple v1) (_version_tuple v2)

/-! ## Version-constraint regex searches and
`_parse_version_constraint_minimum` (`analyzer.py` lines 44-47, 59-91). -/

/-- Try to match `OP\s*([0-9][0-9a-zA-Z._-]*)` anchored at the start of `s`,
returning the captured group.  The whitespace run is consumed greedily;
since no whitespace character is a digit, backtracking cannot rescue a
failed match, so greedy consumption is exact. -/
def matchOpAt (op : List Char) (s : List Char) : Option (List Char) :=
  if op.isPrefixOf s then
    let afterWs := (s.drop op.length).dropWhile isPySpace
    match afterWs with
    | c :: cs => if isDigitC c then some (c :: cs.takeWhile isVerChar) else none
    | [] => none
  else none

/-- Leftmost search for `OP\s*([0-9][0-9a-zA-Z._-]*)`: the embedding of
`pattern.search(constraints)` followed by `match.group(1)` for the
`_RE_VERSION_GE` / `_RE_VERSION_EQ` / `_RE_VERSION_COMPAT` patterns. -/
def searchOp (op : List Char) : List Char → Option (List Char)
  | [] => none
  | c :: rest =>
    match matchOpAt op (c :: rest) with
    | some g => some g
    | none => searchOp op rest

/-- Embedding of `_RE_VERSION_BARE.match(constraints.strip())`
(`^([0-9][0-9a-zA-Z._-]*)$`): after stripping, the whole string must be a
digit followed by version characters; the group is the whole string. -/
def bareMatch (cs : List Char) : Option (List Char) :=
  match stripChars cs with
  | [] => none
  | c :: rest => if isDigitC c && rest.all isVerChar then some (c :: rest) else none

/-- Embedding of `_parse_version_constraint_minimum` (`analyzer.py` 59-91).
Branches in source order: empty input, leading `^`, leading `~`, then the
`>=`, `==`, `~=` regex searches, then the bare-version match. -/
def _parse_version_constraint_minimum (constraints : String) : Option String :=
  let cs := constraints.toList
  if cs = [] then none
  else if cs.head? = some '^' then
    some (stripChars (cs.tail.takeWhile (fun c => !(c == ',')))).asString
  else if cs.head? = some '~' then
    some (stripChars (cs.tail.takeWhile (fun c => !(c == ',')))).asString
  else
    match searchOp ['>', '='] cs with
    | some g => some g.asString
    | none =>
      match searchOp ['=', '='] cs with
      | some g => some g.asString
      | none =>
        match searchOp ['~', '='] cs with
        | some g => some g.asString
        | none =>
          match bareMatch cs with
          | some g => some g.asString
          | none => none

/-! ## Data model (`models.py`) -/

/-- Embedding of the `Action` enumeration (`models.py` 38-52). -/
inductive Action where
  | UPDATE
  | DELETE
  | NONE
  | CHECK_MANUALLY
deriving Repr, DecidableEq

/-- Embedding of the `PythonVersion` dataclass (`models.py` 111-169).
Python `int` is unbounded, so the fields are `Int`. -/
structure PythonVersion where
  major : Int
  minor : Int
deriving Repr, DecidableEq

/-- Python tuple comparison `(a.major, a.minor) < (b.major, b.minor)`
(`PythonVersion.__lt__`). -/
def pvLt (a b : PythonVersion) : Bool :=
  decide (a.major < b.major ∨ (a.major = b.major ∧ a.minor < b.minor))

/-- `PythonVersion.__le__`. -/
def pvLe (a b : PythonVersion) : Bool :=
  decide (a.major < b.major ∨ (a.major = b.major ∧ a.minor ≤ b.minor))

/-- `PythonVersion.__gt__`. -/
def pvGt (a b : PythonVersion) : Bool := pvLt b a

/-- `PythonVersion.__ge__`. -/
def pvGe (a b : PythonVersion) : Bool := pvLe b a

/-- Dataclass equality on `PythonVersion` (field-wise `__eq__`). -/
def pvEq (a b : PythonVersion) : Bool := decide (a = b)

/-- `str(PythonVersion)`: `f"{major}.{minor}"`. -/
def pvToString (a : PythonVersion) : String :=
  toString a.major ++ "." ++ toString a.minor

/-- Python `int(...)` digit-sequence body: decimal digits with single
underscores allowed between digits (`int("1_0") == 10`, `int("1__0")`
and `int("_1")` and `int("1_")` raise). -/
def pyDigitsCore : Nat → List Char → Option Nat
  | acc, [] => some acc
  | acc, c :: cs =>
    if isDigitC c then pyDigitsCore (acc * 10 + charVal c) cs
    else if c = '_' then
      match cs with
      | [] => none
      | d :: ds => if isDigitC d then pyDigitsCore (acc * 10 + charVal d) ds else none
    else none

/-- Value of a nonempty digit sequence (with inner underscores), or `none`. -/
def pyDigitsVal : List Char → Option Nat
  | [] => none
  | c :: cs => if isDigitC c then pyDigitsCore (charVal c) cs else none

/-- Embedding of Python `int(s)` for `str` input: strip whitespace, optional
sign, then a digit sequence; `none` models the `ValueError`. -/
def pyInt (l : List Char) : Option Int :=
  match stripChars l with
  | '+' :: r => (pyDigitsVal r).map (fun n => (n : Int))
  | '-' :: r => (pyDigitsVal r).map (fun n => -(n : Int))
  | r => (pyDigitsVal r).map (fun n => (n : Int))

/-- Embedding of `PythonVersion.from_string` (`models.py` 151-169): strip,
split on `"."`, require at least two parts, parse both with `int` —
`Except.error` models the raised `ValueError`. -/
def PythonVersion.from_stringE (s : String) : Except String PythonVersion :=
  match splitOnChar '.' (stripChars s.toList) with
  | p0 :: p1 :: _ =>
    match pyInt p0, pyInt p1 with
    | some a, some b => Except.ok ⟨a, b⟩
    | _, _ => Except.error "invalid literal for int"
  | _ => Except.error ("Invalid Python version format: " ++ s)

/-- Embedding of the `DependencyInfo` dataclass (`models.py` 84-108). -/
structure DependencyInfo where
  name : String
  raw_spec : String
  version_constraints : String := ""
  python_markers : Option String := none
  extras : List String := []
  source : String := ""
  is_git_dependency : Bool := false
  git_url : Option String := none
  git_ref : Option String := none
deriving Repr, DecidableEq

/-- Modelled from the spec: `VersionResult` is defined in
`version_resolver.py`, which is not part of the analysed sources; spec §3
(`ResolutionResult`) gives its fields: an optional `latest_version`
(absent means "not determined"), an `is_unknown` flag, and an optional
`error` diagnostic.  `analyzer.py` constructs it as
`VersionResult(is_unknown=True)` and reads `latest_version` and
`is_unknown`. -/
structure VersionResult where
  latest_version : Option String := none
  is_unknown : Bool := false
  error : Option String := none
deriving Repr, DecidableEq

/-- Embedding of the `OutdatedEntry` dataclass (`models.py` 55-76). -/
structure OutdatedEntry where
  package : String
  python_version : String
  current_version : Option String
  latest_version : Option String
  action : Action
deriving Repr, DecidableEq

/-- Embedding of the `AnalysisResult` dataclass (`models.py` 177-196). -/
structure AnalysisResult where
  entries : List OutdatedEntry := []
  python_versions : List String := []
  total_dependencies : Nat := 0
  update_count : Nat := 0
  delete_count : Nat := 0
  check_manually_count : Nat := 0
deriving Repr, DecidableEq

/-! ## Marker evaluation (`analyzer.py` lines 51-56, 122-168) -/

/-- Try to match
`python_version\s*OP\s*['\"]?(\d+\.\d+)['\"]?` anchored at the start of
`s`, returning the captured `\d+\.\d+` group.  The optional opening quote
is consumed greedily; a quote is never a digit, so greediness is exact.
The trailing optional quote always succeeds and binds nothing. -/
def matchMarkerAt (op : List Char) (s : List Char) : Option (List Char) :=
  if ("python_version".toList).isPrefixOf s then
    let r1 := (s.drop 14).dropWhile isPySpace
    if op.isPrefixOf r1 then
      let r2 := (r1.drop op.length).dropWhile isPySpace
      let r3 :=
        if r2.head? = some (Char.ofNat 39) ∨ r2.head? = some (Char.ofNat 34) then
          r2.tail
        else r2
      let d1 := r3.takeWhile isDigitC
      let r4 := r3.drop d1.length
      if d1 ≠ [] ∧ r4.head? = some '.' then
        let d2 := r4.tail.takeWhile isDigitC
        if d2 ≠ [] then some (d1 ++ '.' :: d2) else none
      else none
    else none
  else none

/-- Leftmost search for the marker pattern of operator `op`: the embedding
of `_RE_MARKER_*.search(marker)` plus `match.group(1)`. -/
def markerSearch (op : List Char) : List Char → Option (List Char)
  | [] => none
  | c :: rest =>
    match matchMarkerAt op (c :: rest) with
    | some g => some g
    | none => markerSearch op rest

/-- Embedding of `_get_marker_patterns` (`analyzer.py` 142-153): the six
comparison forms in source order, each paired with its evaluator lambda
(which calls `PythonVersion.from_string` and may raise). -/
def _get_marker_patterns (python_version : PythonVersion) :
    List (List Char × (String → Except String Bool)) :=
  [ (['<'], fun m => (PythonVersion.from_stringE m).map (fun v => pvLt python_version v)),
    (['<', '='], fun m => (PythonVersion.from_stringE m).map (fun v => pvLe python_version v)),
    (['>'], fun m => (PythonVersion.from_stringE m).map (fun v => pvGt python_version v)),
    (['>', '='], fun m => (PythonVersion.from_stringE m).map (fun v => pvGe python_version v)),
    (['=', '='], fun m => (PythonVersion.from_stringE m).map (fun v => pvEq python_version v)),
    (['!', '='], fun m => (PythonVersion.from_stringE m).map (fun v => !(pvEq python_version v))) ]

/-- Embedding of `_try_evaluate_marker` (`analyzer.py` 156-168): search the
pattern; `none` if it does not match; otherwise run the evaluator,
converting a raised `ValueError` to `none`. -/
def _try_evaluate_marker (op : List Char) (evaluator : String → Except String Bool)
    (marker : List Char) : Option Bool :=
  match markerSearch op marker with
  | none => none
  | some g =>
    match evaluator g.asString with
    | Except.ok b => some b
    | Except.error _ => none

/-- The `for pattern, evaluator in patterns` loop of
`_dependency_applies_to_python_version`: first non-`none` evaluation wins. -/
def evalFormsLoop (patterns : List (List Char × (String → Except String Bool)))
    (marker : List Char) : Option Bool :=
  match patterns with
  | [] => none
  | (op, ev) :: rest =>
    match _try_evaluate_marker op ev marker with
    | some b => some b
    | none => evalFormsLoop rest marker

/-- Embedding of `_dependency_applies_to_python_version` (`analyzer.py`
122-139).  `if not dep.python_markers` is Python truthiness: both `None`
and the empty string short-circuit to `True`. -/
def _dependency_applies_to_python_version (dep : DependencyInfo)
    (python_version : PythonVersion) : Bool :=
  match dep.python_markers with
  | none => true
  | some s =>
    if s = "" then true
    else
      let marker := stripChars s.toList
      match evalFormsLoop (_get_marker_patterns python_version) marker with
      | some b => b
      | none => true

/-! ## Action determination (`analyzer.py` lines 171-229, 287-308) -/

/-- Embedding of `_determine_git_action` (`analyzer.py` 171-184).
`if latest and current and _version_is_greater(latest, current)` tests
Python truthiness: both options must be `some` of a nonempty string. -/
def _determine_git_action (dep : DependencyInfo) (version_result : VersionResult) :
    Action × Option String × Option String :=
  if version_result.is_unknown then
    (Action.CHECK_MANUALLY, dep.git_ref, some "unknown")
  else
    let current := dep.git_ref
    let latest := version_result.latest_version
    match latest, current with
    | some l, some c =>
      if l ≠ "" ∧ c ≠ "" ∧ _version_is_greater l c then
        (Action.UPDATE, current, latest)
      else
        (Action.CHECK_MANUALLY, current, latest)
    | _, _ => (Action.CHECK_MANUALLY, current, latest)

/-- Embedding of `_determine_pypi_action` (`analyzer.py` 187-204).  The
source compares with `is None`, so empty strings are not special here. -/
def _determine_pypi_action (dep : DependencyInfo) (version_result : VersionResult) :
    Action × Option String × Option String :=
  let current_version := _parse_version_constraint_minimum dep.version_constraints
  let latest_version := version_result.latest_version
  if version_result.is_unknown ∨ latest_version = none then
    (Action.CHECK_MANUALLY, current_version, some "unknown")
  else
    match current_version, latest_version with
    | none, _ => (Action.NONE, none, latest_version)
    | some cv, some lv =>
      if _version_is_greater lv cv then
        (Action.UPDATE, some cv, some lv)
      else
        (Action.NONE, some cv, some lv)
    | some cv, none =>
      -- unreachable: the guard above already returned when latest_version is none
      (Action.CHECK_MANUALLY, some cv, some "unknown")

/-- Embedding of `determine_action` (`analyzer.py` 287-308). -/
def determine_action (dep : DependencyInfo) (python_version : PythonVersion)
    (version_result : VersionResult) : Action × Option String × Option String :=
  if _dependency_applies_to_python_version dep python_version = false then
    (Action.DELETE, none, none)
  else if dep.is_git_dependency then
    _determine_git_action dep version_result
  else
    _determine_pypi_action dep version_result

/-! ## Entry generation and counting (`analyzer.py` lines 207-284) -/

/-- Embedding of `_create_entry_for_version` (`analyzer.py` 207-229). -/
def _create_entry_for_version (dep : DependencyInfo) (py_ver : PythonVersion)
    (version_result : VersionResult) : OutdatedEntry :=
  let r := determine_action dep py_ver version_result
  { package := dep.name,
    python_version := pvToString py_ver,
    current_version := r.2.1,
    latest_version := r.2.2,
    action := r.1 }

/-- Embedding of `_generate_entries_for_dependency` (`analyzer.py` 232-248).
The Python `dict[str, VersionResult]` is modelled as a function into
`Option`; `version_results.get(dep.name, VersionResult(is_unknown=True))`
is `getD` with the defaulted record. -/
def _generate_entries_for_dependency (dep : DependencyInfo)
    (python_versions : List PythonVersion)
    (version_results : String → Option VersionResult) : List OutdatedEntry :=
  let version_result := (version_results dep.name).getD
    { latest_version := none, is_unknown := true, error := none }
  python_versions.map (fun py_ver => _create_entry_for_version dep py_ver version_result)

/-- Embedding of `_generate_entries` (`analyzer.py` 251-269): the
`entries.extend(...)` loop concatenates the per-dependency lists in input
order, one block per original record. -/
def _generate_entries (dependencies : List DependencyInfo)
    (python_versions : List PythonVersion)
    (version_results : String → Option VersionResult) : List OutdatedEntry :=
  match dependencies with
  | [] => []
  | dep :: rest =>
    _generate_entries_for_dependency dep python_versions version_results
      ++ _generate_entries rest python_versions version_results

/-- Embedding of `_count_actions` (`analyzer.py` 272-284): the
`dict.fromkeys(Action, 0)` accumulator is modelled as a function
`Action → Nat`, updated by the loop. -/
def _count_actions (entries : List OutdatedEntry) : Action → Nat :=
  entries.foldl (fun counts entry a =>
    if a = entry.action then counts a + 1 else counts a) (fun _ => 0)

/-! ## Orchestrator (`analyzer.py` lines 311-397) -/

/-- First-occurrence deduplication of a list of names, as a Python dict's
key list. -/
def dedupNames : List String → List String
  | [] => []
  | n :: rest => n :: (dedupNames rest).filter (fun m => !(m == n))

/-- The key list of `unique_deps = {dep.name: dep for dep in dependencies}`
(`analyzer.py` 349): a Python dict keeps one key per distinct name, in
first-occurrence order. -/
def uniqueDepNames (dependencies : List DependencyInfo) : List String :=
  dedupNames (dependencies.map (fun d => d.name))

/-- Embedding of `Analyzer._build_result` (`analyzer.py` 366-383), with
`unique_deps` passed as its key list (only `len(unique_deps)` is used). -/
def Analyzer_build_result (dependencies : List DependencyInfo)
    (python_versions : List PythonVersion)
    (version_results : String → Option VersionResult)
    (unique_deps : List String) : AnalysisResult :=
  let entries := _generate_entries dependencies python_versions version_results
  let counts := _count_actions entries
  { entries := entries,
    python_versions := python_versions.map pvToString,
    total_dependencies := unique_deps.length,
    update_count := counts Action.UPDATE,
    delete_count := counts Action.DELETE,
    check_manually_count := counts Action.CHECK_MANUALLY }

/-- The pure tail of `Analyzer.analyze_async` (`analyzer.py` 339-357) after
version resolution has produced its mapping: build `unique_deps` from the
dependency list and delegate to `_build_result`. -/
def analyzeCore (dependencies : List DependencyInfo)
    (python_versions : List PythonVersion)
    (version_results : String → Option VersionResult) : AnalysisResult :=
  Analyzer_build_result dependencies python_versions version_results
    (uniqueDepNames dependencies)

/-- Modelled from the spec: `VersionResolver` lives in
`version_resolver.py`, which is not part of the analysed sources; spec
§4.3 says the resolver owns the HTTP-client configuration (timeout and the
optional host credential), which is all `Analyzer.__post_init__` passes to
it.  Its construction raises nothing. -/
structure VersionResolver where
  timeout : Rat
  github_token : Option String
deriving Repr, DecidableEq

/-- Embedding of the `Analyzer` dataclass fields (`analyzer.py` 311-325).
Python `float` timeout is modelled as `Rat` (the validation only compares
against zero); `concurrency` is an unbounded Python `int`. -/
structure Analyzer where
  github_token : Option String
  timeout : Rat
  concurrency : Int
  resolver : VersionResolver
deriving Repr, DecidableEq

/-- Embedding of `Analyzer(...)` construction including `__post_init__`
(`analyzer.py` 327-337): the two validation checks run at construction
time, in source order, before the resolver is created; `Except.error`
models the raised `ValueError`. -/
def mkAnalyzer (github_token : Option String) (timeout : Rat) (concurrency : Int) :
    Except String Analyzer :=
  if timeout ≤ 0 then
    Except.error "timeout must be positive"
  else if concurrency ≤ 0 then
    Except.error "concurrency must be positive"
  else
    Except.ok
      { github_token := github_token,
        timeout := timeout,
        concurrency := concurrency,
        resolver := { timeout := timeout, github_token := github_token } }

/-! ## Helper lemmas -/

/-- Python tuple `>` on naturals agrees with lexicographic strict order. -/
theorem tupleGt_iff_lex (l₁ l₂ : List Nat) :
    tupleGt l₁ l₂ = true ↔ List.Lex (· < ·) l₂ l₁ := by
  induction l₁ generalizing l₂ with
  | nil =>
    constructor
    · intro h
      simp [tupleGt] at h
    · intro h
      cases h
  | cons a as ih =>
    cases l₂ with
    | nil =>
      constructor
      · intro _
        exact List.Lex.nil
      · intro _
        rfl
    | cons b bs =>
      by_cases hba : b < a
      · constructor
        · intro _
          exact List.Lex.rel hba
        · intro _
          simp [tupleGt, hba]
      · by_cases hab : a < b
        · constructor
          · intro h
            simp [tupleGt, hba, hab] at h
          · intro h
            cases h with
            | rel h' => exact absurd h' hba
            | cons h' => exact absurd hab (lt_irrefl a)
        · have heq : a = b := le_antisymm (not_lt.mp hba) (not_lt.mp hab)
          subst heq
          constructor
          · intro h
            have h' : tupleGt as bs = true := by
              simpa [tupleGt, lt_self_iff_false] using h
            exact List.Lex.cons ((ih bs).mp h')
          · intro h
            have h' : List.Lex (· < ·) bs as := by
              cases h with
              | rel h'' => exact absurd h'' (lt_irrefl a)
              | cons h'' => exact h''
            simp [tupleGt, lt_self_iff_false, (ih bs).mpr h']

/-- Python tuple `>` is irreflexive. -/
theorem tupleGt_self (l : List Nat) : tupleGt l l = false := by
  induction l with
  | nil => rfl
  | cons a as ih => simp [tupleGt, ih]

/-! ## C4 -/

/-- C4: `is_greater(a, b)` holds iff `numeric_tuple(a)` is lexicographically
greater than `numeric_tuple(b)` (Python tuple comparison, a strict prefix
comparing as smaller); in particular it is irreflexive, and the concrete
comparisons `is_greater("2.0.0","1.9.9") = true`,
`is_greater("1.0","1.0.0") = false`, `is_greater("1.0.0","1.0") = true`
hold, with `numeric_tuple` stripping from the first hyphen and first plus,
collecting digit runs, and defaulting to `(0,)`. -/
theorem version_is_greater_lex_spec :
    (∀ a b : String, _version_is_greater a b = tupleGt (_version_tuple a) (_version_tuple b))
  ∧ (∀ a b : String, _version_is_greater a b = true ↔
       List.Lex (· < ·) (_version_tuple b) (_version_tuple a))
  ∧ (∀ a : String, _version_is_greater a a = false)
  ∧ (_version_is_greater "2.0.0" "1.9.9" = true)
  ∧ (_version_is_greater "1.0" "1.0.0" = false)
  ∧ (_version_is_greater "1.0.0" "1.0" = true)
  ∧ (_version_tuple "1.2.3-beta1" = [1, 2, 3])
  ∧ (_version_tuple "latest" = [0]) := by
  refine ⟨fun a b => rfl, fun a b => tupleGt_iff_lex _ _, fun a => tupleGt_self _,
    by decide, by decide, by decide, by decide, by decide⟩

/-- C4 witness: irreflexivity at the concrete version string `"1.0.0"`. -/
theorem version_is_greater_lex_spec_witness :
    _version_is_greater "1.0.0" "1.0.0" = false :=
  version_is_greater_lex_spec.2.2.1 "1.0.0"

/-! ## C5 -/

/-- Restatement of the spec's description of `minimum_of`: the recognized
forms tried in the spec's order — a leading caret or tilde operator
(strip the operator, take the text up to the first comma, strip
whitespace), then the `>=` bound, the `==` bound, the compatible-release
`~=` bound, and finally a bare version string; `none` on empty input or
when no form matches. -/
def minimumOfSpec (constraints : String) : Option String :=
  let cs := constraints.toList
  if cs = [] then none
  else if cs.head? = some '^' ∨ cs.head? = some '~' then
    some (stripChars (cs.tail.takeWhile (fun c => !(c == ',')))).asString
  else
    match searchOp ['>', '='] cs with
    | some g => some g.asString
    | none =>
      match searchOp ['=', '='] cs with
      | some g => some g.asString
      | none =>
        match searchOp ['~', '='] cs with
        | some g => some g.asString
        | none =>
          match bareMatch cs with
          | some g => some g.asString
          | none => none

/-- C5: `_parse_version_constraint_minimum` tries the recognized forms in
exactly the spec's order, so it coincides with the spec-ordered
restatement on every input; in particular a constraint beginning with
`~=` is handled by the leading-tilde branch (which strips only the tilde,
yielding `"=1.5"` for `"~=1.5"`), `>=`/caret/bare inputs are extracted as
described, and empty or unrecognized input yields `none`. -/
theorem minimum_of_branch_order :
    (∀ s : String, _parse_version_constraint_minimum s = minimumOfSpec s)
  ∧ (_parse_version_constraint_minimum "~=1.5" = some "=1.5")
  ∧ (_parse_version_constraint_minimum ">=1.0,<2.0" = some "1.0")
  ∧ (_parse_version_constraint_minimum "^1.5.0" = some "1.5.0")
  ∧ (_parse_version_constraint_minimum "1.2.3" = some "1.2.3")
  ∧ (_parse_version_constraint_minimum "" = none)
  ∧ (_parse_version_constraint_minimum "<2.0" = none) := by
  refine ⟨?_, by decide, by decide, by decide, by decide, by decide, by decide⟩
  intro s
  simp only [_parse_version_constraint_minimum, minimumOfSpec]
  split_ifs with h1 h2 h3 h4 <;> first | rfl | tauto

/-! ## C1 -/

/-- C1: for every dependency record, Python version and resolution result,
if the marker evaluator reports the dependency inapplicable, then
`determine_action` returns `(DELETE, None, None)` — regardless of the
resolution result and of whether the dependency is git or registry. -/
theorem determine_action_inapplicable_marker_deletes
    (dep : DependencyInfo) (python_version : PythonVersion) (version_result : VersionResult)
    (h : _dependency_applies_to_python_version dep python_version = false) :
    determine_action dep python_version version_result = (Action.DELETE, none, none) := by
  unfold determine_action
  rw [h]
  simp

/-- C1 witness: `tomli` with marker `python_version < 3.11` under Python
3.11 is inapplicable and is deleted, even with a resolved latest version. -/
theorem determine_action_inapplicable_marker_deletes_witness :
    _dependency_applies_to_python_version
      { name := "tomli", raw_spec := "tomli",
        python_markers := some "python_version < 3.11" } ⟨3, 11⟩ = false ∧
    determine_action
      { name := "tomli", raw_spec := "tomli",
        python_markers := some "python_version < 3.11" } ⟨3, 11⟩
      { latest_version := some "2.0.1" } = (Action.DELETE, none, none) :=
  ⟨by decide, determine_action_inapplicable_marker_deletes _ _ _ (by decide)⟩

/-! ## C2 -/

/-- C2: for every registry (non-git) dependency whose marker applies, with
`current = minimum_of(version_constraints)`: an unknown resolution or
absent latest yields `(CHECK_MANUALLY, current, "unknown")`; a known
latest with absent current yields `(NONE, None, latest)` — never UPDATE;
otherwise the result is `(UPDATE, current, latest)` exactly when
`is_greater(latest, current)`, else `(NONE, current, latest)`. -/
theorem determine_action_pypi_cases
    (dep : DependencyInfo) (pv : PythonVersion) (vr : VersionResult)
    (hgit : dep.is_git_dependency = false)
    (happ : _dependency_applies_to_python_version dep pv = true) :
    ((vr.is_unknown = true ∨ vr.latest_version = none) →
       determine_action dep pv vr =
         (Action.CHECK_MANUALLY, _parse_version_constraint_minimum dep.version_constraints,
          some "unknown"))
  ∧ (∀ lv : String, vr.is_unknown = false → vr.latest_version = some lv →
       _parse_version_constraint_minimum dep.version_constraints = none →
       determine_action dep pv vr = (Action.NONE, none, some lv))
  ∧ (∀ lv cv : String, vr.is_unknown = false → vr.latest_version = some lv →
       _parse_version_constraint_minimum dep.version_constraints = some cv →
       determine_action dep pv vr =
         (if _version_is_greater lv cv then (Action.UPDATE, some cv, some lv)
          else (Action.NONE, some cv, some lv))) := by
  have hd : determine_action dep pv vr = _determine_pypi_action dep vr := by
    unfold determine_action
    rw [happ, hgit]
    simp
  refine ⟨?_, ?_, ?_⟩
  · intro hu
    rw [hd]
    unfold _determine_pypi_action
    rw [if_pos]
    rcases hu with hu | hu
    · exact Or.inl hu
    · exact Or.inr hu
  · intro lv hu hl hc
    rw [hd]
    unfold _determine_pypi_action
    rw [if_neg, hc, hl]
    rw [hu, hl]
    simp
  · intro lv cv hu hl hc
    rw [hd]
    unfold _determine_pypi_action
    rw [if_neg, hc, hl]
    rw [hu, hl]
    simp

/-- C2 witness: `requests` with constraint `>=2.28.0` and resolved latest
`2.31.0` under an applicable marker yields
`(UPDATE, "2.28.0", "2.31.0")`. -/
theorem determine_action_pypi_cases_witness :
    determine_action
      { name := "requests", raw_spec := "requests", version_constraints := ">=2.28.0" }
      ⟨3, 11⟩ { latest_version := some "2.31.0" } =
      (Action.UPDATE, some "2.28.0", some "2.31.0") := by
  rw [(determine_action_pypi_cases
    { name := "requests", raw_spec := "requests", version_constraints := ">=2.28.0" }
    ⟨3, 11⟩ { latest_version := some "2.31.0" } rfl (by decide)).2.2
    "2.31.0" "2.28.0" rfl rfl (by decide)]
  decide

/-! ## C3 -/

/-- Concrete git dependency with a present but empty `git_ref`. -/
def gitEmptyRefDep : DependencyInfo :=
  { name := "pkg", raw_spec := "pkg", is_git_dependency := true,
    git_url := some "https://github.com/o/r", git_ref := some "" }

/-- Concrete known resolution for `gitEmptyRefDep`. -/
def gitEmptyRefVr : VersionResult := { latest_version := some "1.0.0" }

/-- C3 counterexample: at a git dependency whose `git_ref` is present but
empty, with a known latest version that is numerically greater, the claim
demands UPDATE, but the code's truthiness test makes it return
CHECK_MANUALLY. -/
theorem determine_action_git_empty_ref_counterexample :
    gitEmptyRefDep.is_git_dependency = true ∧
    _dependency_applies_to_python_version gitEmptyRefDep ⟨3, 11⟩ = true ∧
    gitEmptyRefVr.is_unknown = false ∧
    gitEmptyRefDep.git_ref.isSome = true ∧
    gitEmptyRefVr.latest_version.isSome = true ∧
    _version_is_greater "1.0.0" "" = true ∧
    determine_action gitEmptyRefDep ⟨3, 11⟩ gitEmptyRefVr =
      (Action.CHECK_MANUALLY, some "", some "1.0.0") := by
  decide

/-- C3 (amended): for every git dependency whose marker applies: an unknown
resolution yields `(CHECK_MANUALLY, git_ref, "unknown")`; if `git_ref`
and the latest version are both present and nonempty and
`is_greater(latest, git_ref)` holds the result is
`(UPDATE, git_ref, latest)`; in every other case it is
`(CHECK_MANUALLY, git_ref, latest)`; a git dependency never yields NONE. -/
theorem determine_action_git_cases
    (dep : DependencyInfo) (pv : PythonVersion) (vr : VersionResult)
    (hgit : dep.is_git_dependency = true)
    (happ : _dependency_applies_to_python_version dep pv = true) :
    (vr.is_unknown = true →
       determine_action dep pv vr = (Action.CHECK_MANUALLY, dep.git_ref, some "unknown"))
  ∧ (∀ c l : String, vr.is_unknown = false → dep.git_ref = some c →
       vr.latest_version = some l → c ≠ "" → l ≠ "" → _version_is_greater l c = true →
       determine_action dep pv vr = (Action.UPDATE, some c, some l))
  ∧ (vr.is_unknown = false →
       (∀ c l : String, dep.git_ref = some c → vr.latest_version = some l →
          c = "" ∨ l = "" ∨ _version_is_greater l c = false) →
       determine_action dep pv vr = (Action.CHECK_MANUALLY, dep.git_ref, vr.latest_version))
  ∧ (∀ x y : Option String, determine_action dep pv vr ≠ (Action.NONE, x, y)) := by
  have hd : determine_action dep pv vr = _determine_git_action dep vr := by
    unfold determine_action
    rw [happ, hgit]
    simp
  refine ⟨?_, ?_, ?_, ?_⟩
  · intro hu
    rw [hd]
    unfold _determine_git_action
    rw [if_pos hu]
  · intro c l hu hc hl hcne hlne hgt
    rw [hd]
    unfold _determine_git_action
    rw [hu, hc, hl]
    simp [hcne, hlne, hgt]
  · intro hu hother
    rw [hd]
    unfold _determine_git_action
    rw [hu]
    simp only [Bool.false_eq_true, if_false]
    cases hl : vr.latest_version with
    | none => rfl
    | some l =>
      cases hc : dep.git_ref with
      | none => rfl
      | some c =>
        rcases hother c l hc hl with h | h | h
        · simp [h]
        · simp [h]
        · simp [h]
  · intro x y
    rw [hd]
    unfold _determine_git_action
    by_cases hu : vr.is_unknown
    · simp [hu]
    · simp only [hu, if_false]
      cases vr.latest_version with
      | none => simp
      | some l =>
        cases dep.git_ref with
        | none => simp
        | some c =>
          by_cases hcond : l ≠ "" ∧ c ≠ "" ∧ _version_is_greater l c
          · simp [hcond]
          · simp [hcond]

/-- C3 witness (amended theorem): the spec's end-to-end git scenario —
`git_ref = "1.0.0"`, resolved latest `"2.0.0"` — yields
`(UPDATE, "1.0.0", "2.0.0")`. -/
theorem determine_action_git_cases_witness :
    determine_action
      { name := "g", raw_spec := "g", is_git_dependency := true, git_ref := some "1.0.0" }
      ⟨3, 11⟩ { latest_version := some "2.0.0" } =
      (Action.UPDATE, some "1.0.0", some "2.0.0") :=
  (determine_action_git_cases
    { name := "g", raw_spec := "g", is_git_dependency := true, git_ref := some "1.0.0" }
    ⟨3, 11⟩ { latest_version := some "2.0.0" } rfl (by decide)).2.1
    "1.0.0" "2.0.0" rfl rfl rfl (by decide) (by decide) (by decide)

/-! ## C6 -/

/-- C6: the marker evaluator returns true when no marker expression is
present; otherwise the six comparison forms (`<`, `<=`, `>`, `>=`, `==`,
`!=`) are tried in source order and the first matching form determines
the result (`evalFormsLoop` over `_get_marker_patterns` is that ordered
first-match loop); when no form matches — e.g. a platform check — the
evaluator fails open and returns true. -/
theorem applies_marker_evaluation :
    (∀ (dep : DependencyInfo) (pv : PythonVersion), dep.python_markers = none →
       _dependency_applies_to_python_version dep pv = true)
  ∧ (∀ (dep : DependencyInfo) (pv : PythonVersion) (m : String) (b : Bool),
       dep.python_markers = some m →
       evalFormsLoop (_get_marker_patterns pv) (stripChars m.toList) = some b →
       _dependency_applies_to_python_version dep pv = b)
  ∧ (∀ (dep : DependencyInfo) (pv : PythonVersion) (m : String),
       dep.python_markers = some m →
       evalFormsLoop (_get_marker_patterns pv) (stripChars m.toList) = none →
       _dependency_applies_to_python_version dep pv = true)
  ∧ (_dependency_applies_to_python_version
       { name := "x", raw_spec := "x", python_markers := some "python_version < 3.11" }
       ⟨3, 10⟩ = true)
  ∧ (_dependency_applies_to_python_version
       { name := "x", raw_spec := "x", python_markers := some "python_version < 3.11" }
       ⟨3, 11⟩ = false)
  ∧ (_dependency_applies_to_python_version
       { name := "x", raw_spec := "x", python_markers := some "sys_platform == win32" }
       ⟨3, 11⟩ = true) := by
  refine ⟨?_, ?_, ?_, by decide, by decide, by decide⟩
  · intro dep pv h
    unfold _dependency_applies_to_python_version
    rw [h]
  · intro dep pv m b hm hl
    by_cases he : m = ""
    · subst he
      rw [show evalFormsLoop (_get_marker_patterns pv) (stripChars "".toList) = none
        from rfl] at hl
      exact Option.noConfusion hl
    · unfold _dependency_applies_to_python_version
      rw [hm]
      dsimp only
      rw [if_neg he, hl]
  · intro dep pv m hm hl
    unfold _dependency_applies_to_python_version
    rw [hm]
    dsimp only
    by_cases he : m = ""
    · rw [if_pos he]
    · rw [if_neg he, hl]

/-- C6 witness: the GE form is the first matching form for
`python_version >= 3.8` and decides the result under Python 3.7. -/
theorem applies_marker_evaluation_witness :
    _dependency_applies_to_python_version
      { name := "y", raw_spec := "y", python_markers := some "python_version >= 3.8" }
      ⟨3, 7⟩ = false :=
  applies_marker_evaluation.2.1
    { name := "y", raw_spec := "y", python_markers := some "python_version >= 3.8" }
    ⟨3, 7⟩ "python_version >= 3.8" false rfl (by decide)

/-! ## C7 -/

/-- With the defaulted unknown resolution, an entry degrades to
CHECK_MANUALLY or DELETE for any dependency and Python version. -/
theorem determine_action_default_unknown (dep : DependencyInfo) (pv : PythonVersion) :
    (determine_action dep pv { latest_version := none, is_unknown := true, error := none }).1
        = Action.CHECK_MANUALLY ∨
    (determine_action dep pv { latest_version := none, is_unknown := true, error := none }).1
        = Action.DELETE := by
  unfold determine_action
  by_cases h : _dependency_applies_to_python_version dep pv = false
  · rw [if_pos h]
    right
    rfl
  · rw [if_neg h]
    by_cases hg : dep.is_git_dependency
    · left
      simp only [hg, if_true]
      rfl
    · left
      simp only [hg, if_false]
      simp [_determine_pypi_action]

/-- Length of the per-dependency entry block. -/
theorem generate_entries_for_dependency_length (dep : DependencyInfo)
    (pvs : List PythonVersion) (results : String → Option VersionResult) :
    (_generate_entries_for_dependency dep pvs results).length = pvs.length := by
  simp [_generate_entries_for_dependency]

/-- C7: entry generation yields exactly one entry per (original record ×
Python version) pair — one block per record, in order, with no
deduplication — and a record whose name is absent from the resolution
mapping is analysed against the defaulted unknown result, so its entries
degrade to CHECK_MANUALLY or DELETE instead of aborting the batch. -/
theorem generate_entries_complete :
    (∀ (deps : List DependencyInfo) (pvs : List PythonVersion)
       (results : String → Option VersionResult),
       (_generate_entries deps pvs results).length = deps.length * pvs.length)
  ∧ (∀ (dep : DependencyInfo) (deps : List DependencyInfo) (pvs : List PythonVersion)
       (results : String → Option VersionResult),
       _generate_entries (dep :: deps) pvs results =
         _generate_entries_for_dependency dep pvs results
           ++ _generate_entries deps pvs results)
  ∧ (∀ (dep : DependencyInfo) (pvs : List PythonVersion)
       (results : String → Option VersionResult),
       results dep.name = none →
       ∀ e ∈ _generate_entries_for_dependency dep pvs results,
         e.action = Action.CHECK_MANUALLY ∨ e.action = Action.DELETE) := by
  refine ⟨?_, fun dep deps pvs results => rfl, ?_⟩
  · intro deps pvs results
    induction deps with
    | nil => simp [_generate_entries]
    | cons d ds ih =>
      simp only [_generate_entries, List.length_append,
        generate_entries_for_dependency_length, ih, List.length_cons]
      ring
  · intro dep pvs results h e he
    unfold _generate_entries_for_dependency at he
    rw [h] at he
    simp only [Option.getD_none, List.mem_map] at he
    obtain ⟨pv, _, rfl⟩ := he
    exact determine_action_default_unknown dep pv

/-- C7 witness: two copies of one unresolvable record under two Python
versions yield four entries, and a concrete degraded entry carries
CHECK_MANUALLY or DELETE. -/
theorem generate_entries_complete_witness :
    (_generate_entries
      [{ name := "w", raw_spec := "w" }, { name := "w", raw_spec := "w" }]
      [⟨3, 11⟩, ⟨3, 12⟩] (fun _ => none)).length = 2 * 2
  ∧ ((_create_entry_for_version { name := "w", raw_spec := "w" } ⟨3, 11⟩
      { latest_version := none, is_unknown := true, error := none }).action =
        Action.CHECK_MANUALLY ∨
     (_create_entry_for_version { name := "w", raw_spec := "w" } ⟨3, 11⟩
      { latest_version := none, is_unknown := true, error := none }).action =
        Action.DELETE) :=
  ⟨generate_entries_complete.1 _ _ _,
   generate_entries_complete.2.2 { name := "w", raw_spec := "w" } [⟨3, 11⟩]
     (fun _ => none) rfl _ (by decide)⟩

/-! ## C8 -/

/-- C8: constructing the orchestrator fails exactly when the timeout or the
concurrency is non-positive: the two checks run inside construction (the
embedded `__post_init__`), in source order, and positive configuration
constructs successfully. -/
theorem analyzer_config_validation :
    ∀ (gt : Option String) (t : Rat) (c : Int),
      ((∃ a : Analyzer, mkAnalyzer gt t c = Except.ok a) ↔ (0 < t ∧ 0 < c))
    ∧ (t ≤ 0 → mkAnalyzer gt t c = Except.error "timeout must be positive")
    ∧ (0 < t → c ≤ 0 → mkAnalyzer gt t c = Except.error "concurrency must be positive") := by
  intro gt t c
  unfold mkAnalyzer
  by_cases h1 : t ≤ 0
  · rw [if_pos h1]
    refine ⟨?_, fun _ => rfl, fun hp _ => absurd h1 (not_le.mpr hp)⟩
    constructor
    · rintro ⟨a, ha⟩
      exact Except.noConfusion ha
    · rintro ⟨hpt, _⟩
      exact absurd h1 (not_le.mpr hpt)
  · rw [if_neg h1]
    by_cases h2 : c ≤ 0
    · rw [if_pos h2]
      refine ⟨?_, fun hle => absurd hle h1, fun _ _ => rfl⟩
      constructor
      · rintro ⟨a, ha⟩
        exact Except.noConfusion ha
      · rintro ⟨_, hpc⟩
        exact absurd h2 (not_le.mpr hpc)
    · rw [if_neg h2]
      refine ⟨?_, fun hle => absurd hle h1, fun _ hle => absurd hle h2⟩
      constructor
      · intro _
        exact ⟨not_le.mp h1, not_le.mp h2⟩
      · intro _
        exact ⟨_, rfl⟩

/-- C8 witness: default configuration constructs; zero timeout and zero
concurrency are each rejected at construction time. -/
theorem analyzer_config_validation_witness :
    (∃ a : Analyzer, mkAnalyzer none 30 10 = Except.ok a)
  ∧ mkAnalyzer none 0 10 = Except.error "timeout must be positive"
  ∧ mkAnalyzer none 30 0 = Except.error "concurrency must be positive" :=
  ⟨((analyzer_config_validation none 30 10).1).mpr ⟨by norm_num, by norm_num⟩,
   (analyzer_config_validation none 0 10).2.1 le_rfl,
   (analyzer_config_validation none 30 0).2.2 (by norm_num) le_rfl⟩

/-! ## C9 -/

/-- The action-count accumulator agrees with a direct count of entries. -/
theorem count_actions_eq_countP (entries : List OutdatedEntry) (a : Action) :
    _count_actions entries a = entries.countP (fun e => e.action == a) := by
  suffices h : ∀ (l : List OutdatedEntry) (f : Action → Nat),
      (l.foldl (fun counts entry a => if a = entry.action then counts a + 1 else counts a) f) a
        = f a + l.countP (fun e => e.action == a) by
    simpa [_count_actions] using h entries (fun _ => 0)
  intro l
  induction l with
  | nil =>
    intro f
    simp
  | cons e es ih =>
    intro f
    simp only [List.foldl_cons, List.countP_cons]
    rw [ih]
    by_cases he : a = e.action
    · have hb : (e.action == a) = true := beq_iff_eq.mpr he.symm
      rw [if_pos he]
      simp only [hb, if_pos]
      omega
    · have hne : (e.action == a) = false := by
        simp [beq_eq_false_iff_ne]
        exact fun hc => he hc.symm
      simp [if_neg he, hne]

/-- Membership in the first-occurrence deduplication is membership in the
original list. -/
theorem mem_dedupNames (l : List String) (n : String) :
    n ∈ dedupNames l ↔ n ∈ l := by
  induction l with
  | nil => simp [dedupNames]
  | cons m rest ih =>
    simp only [dedupNames, List.mem_cons, List.mem_filter, ih]
    by_cases hnm : n = m
    · subst hnm
      simp
    · simp [hnm]

/-- The first-occurrence deduplication has no duplicates. -/
theorem nodup_dedupNames (l : List String) : (dedupNames l).Nodup := by
  induction l with
  | nil => simp [dedupNames]
  | cons m rest ih =>
    simp only [dedupNames]
    rw [List.nodup_cons]
    refine ⟨?_, ih.filter _⟩
    simp [List.mem_filter]

/-- C9 (amended): the built analysis result reports summary counts for
UPDATE, DELETE and CHECK_MANUALLY — each equal to the number of produced
entries carrying that action — together with the number of unique
dependency names; the NONE count is tallied internally by
`_count_actions` but `AnalysisResult` carries no summary field for it. -/
theorem build_result_counts :
    ∀ (deps : List DependencyInfo) (pvs : List PythonVersion)
      (results : String → Option VersionResult),
      ((analyzeCore deps pvs results).update_count =
        (analyzeCore deps pvs results).entries.countP (fun e => e.action == Action.UPDATE))
    ∧ ((analyzeCore deps pvs results).delete_count =
        (analyzeCore deps pvs results).entries.countP (fun e => e.action == Action.DELETE))
    ∧ ((analyzeCore deps pvs results).check_manually_count =
        (analyzeCore deps pvs results).entries.countP
          (fun e => e.action == Action.CHECK_MANUALLY))
    ∧ ((analyzeCore deps pvs results).total_dependencies = (uniqueDepNames deps).length)
    ∧ (uniqueDepNames deps).Nodup
    ∧ (∀ n : String, n ∈ uniqueDepNames deps ↔ n ∈ deps.map (fun d => d.name)) := by
  intro deps pvs results
  exact ⟨count_actions_eq_countP _ _, count_actions_eq_countP _ _,
    count_actions_eq_countP _ _, rfl, nodup_dedupNames _,
    fun n => mem_dedupNames _ n⟩

/-- Concrete dependency whose two entries both get action NONE. -/
def noneCountDep : DependencyInfo :=
  { name := "a", raw_spec := "a", version_constraints := ">=1.0" }

/-- Resolution mapping for `noneCountDep`: latest equals the declared
minimum, so no update is recommended. -/
def noneCountResults : String → Option VersionResult :=
  fun n => if n = "a" then some { latest_version := some "1.0" } else none

/-- The built result for the NONE-count counterexample. -/
def noneCountResult : AnalysisResult :=
  analyzeCore [noneCountDep] [⟨3, 11⟩, ⟨3, 12⟩] noneCountResults

/-- C9 counterexample: a result with exactly two NONE entries reports no
summary count equal to that number — `AnalysisResult` has only
`update_count`, `delete_count`, `check_manually_count` and
`total_dependencies`, none of which is the NONE tally. -/
theorem build_result_none_count_counterexample :
    (noneCountResult.entries.countP (fun e => e.action == Action.NONE)) = 2
  ∧ noneCountResult.update_count ≠ 2
  ∧ noneCountResult.delete_count ≠ 2
  ∧ noneCountResult.check_manually_count ≠ 2
  ∧ noneCountResult.total_dependencies ≠ 2 := by
  decide

/-! ## C10 -/

/-- C10: `determine_action` is total — every dependency record, Python
version and resolution result produce an action triple; a marker
evaluator whose version text fails to parse is contained by
`_try_evaluate_marker` and treated as a non-matching form; an
unparseable constraint string yields an absent minimum; and version
strings without digits compare through the `(0,)` default tuple. -/
theorem determine_action_total_safety :
    (∀ (dep : DependencyInfo) (pv : PythonVersion) (vr : VersionResult),
       ∃ (a : Action) (cur lat : Option String),
         determine_action dep pv vr = (a, cur, lat))
  ∧ (∀ (op : List Char) (ev : String → Except String Bool) (marker g : List Char)
       (e : String),
       markerSearch op marker = some g → ev g.asString = Except.error e →
       _try_evaluate_marker op ev marker = none)
  ∧ (_parse_version_constraint_minimum "not.a.version" = none)
  ∧ (_version_tuple "latest" = [0])
  ∧ (_version_is_greater "latest" "stable" = false)
  ∧ (_version_is_greater "stable" "latest" = false) := by
  refine ⟨?_, ?_, by decide, by decide, by decide, by decide⟩
  · intro dep pv vr
    exact ⟨(determine_action dep pv vr).1, (determine_action dep pv vr).2.1,
      (determine_action dep pv vr).2.2, rfl⟩
  · intro op ev marker g e h1 h2
    unfold _try_evaluate_marker
    rw [h1]
    dsimp only
    rw [h2]

/-- C10 witness: a marker whose pattern matches but whose evaluator raises
is treated as non-matching. -/
theorem determine_action_total_safety_witness :
    _try_evaluate_marker ['<'] (fun _ => Except.error "boom")
      "python_version < 3.8".toList = none :=
  determine_action_total_safety.2.1 ['<'] (fun _ => Except.error "boom")
    "python_version < 3.8".toList "3.8".toList "boom" (by decide) rfl

end PyprojDepAnalyze
